import Mathlib

/-
Verification of the DCAUD GUI front-end (src/src/gui_example/main.py).

The window is modelled as a record of its mutable widget/field state, and
each Qt slot or button handler becomes a pure transition function on that
record.  External side effects (dialogs, controller calls, thread-pool
submissions) are recorded in an explicit `Action` trace so that ordering
and absence properties can be stated.  Bitmaps are modelled by their pixel
dimensions; a null bitmap is one with a zero dimension, matching QPixmap.
The size arithmetic of QPixmap.scaled with the keep-aspect mode (used with
a 400x400 target) is reproduced from Qt: the QSize scaling computation
followed by the clamp of each dimension to at least 1.
-/

namespace DCAUD

/-- A decoded bitmap, modelled by its pixel dimensions.  QPixmap(path) on a
file that fails to decode yields a null pixmap, i.e. one of zero size. -/
structure Pixmap where
  w : Nat
  h : Nat
deriving Repr, DecidableEq

/-- QPixmap.isNull: a pixmap is null iff its width or height is zero. -/
def Pixmap.isNull (p : Pixmap) : Bool :=
  p.w == 0 || p.h == 0

/-- Size arithmetic of QSize scaling in keep-aspect mode (Qt source): if a
source dimension is zero the target size is returned; otherwise the source
rectangle is mapped to the largest rectangle of the same aspect that fits
in the target.  All divisions are integer divisions, as in Qt. -/
def scaledKeep (w h tw th : Nat) : Nat × Nat :=
  if w == 0 || h == 0 then (tw, th)
  else if th * w / h ≤ tw then (th * w / h, th)
  else (tw, tw * h / w)

/-- QPixmap.scaled(400, 400, keep-aspect): the QSize computation followed by
Qt's clamp of both result dimensions to at least 1.  On a null pixmap Qt
returns a null pixmap. -/
def scaled400 (p : Pixmap) : Pixmap :=
  if p.isNull then p
  else
    let n := scaledKeep p.w p.h 400 400
    { w := max n.1 1, h := max n.2 1 }

/-- ImageLoader.run: decode the file (the decode result is the argument) and
emit the loaded signal only when the pixmap is not null; a decode failure
delivers nothing and raises nothing. -/
def ImageLoader_run (decoded : Pixmap) : Option Pixmap :=
  if decoded.isNull then none else some decoded

/-- Python substring search on lists of characters: does pat occur as a
contiguous run at the head of l? -/
def charsStart : List Char → List Char → Bool
  | [], _ => true
  | _ :: _, [] => false
  | a :: as, b :: bs => a == b && charsStart as bs

/-- Python substring search: does pat occur contiguously anywhere in l? -/
def charsContain (pat : List Char) : List Char → Bool
  | [] => charsStart pat []
  | b :: bs => charsStart pat (b :: bs) || charsContain pat bs

/-- Python `sub in s` on strings. -/
def strContains (s pat : String) : Bool :=
  charsContain pat.toList s.toList

/-- Python str.endswith. -/
def strEndsWith (s pat : String) : Bool :=
  charsStart pat.toList.reverse s.toList.reverse

/-- Drop leading whitespace characters. -/
def dropLeadingWS : List Char → List Char
  | [] => []
  | c :: cs => if c.isWhitespace then dropLeadingWS cs else c :: cs

/-- Python str.strip with no argument: remove leading and trailing
whitespace. -/
def pyStrip (s : String) : String :=
  { data := (dropLeadingWS (dropLeadingWS s.toList).reverse).reverse }

/-- An externally visible action of the window: a modal dialog, a call into
the external bot controller, or an operation on the image thread pool. -/
inductive Action where
  | ShowWarning (title msg : String)
  | AskQuestion (title msg : String)
  | SetExePath (p : String)
  | SetDisplay (t : String)
  | ControllerStart (username : Option String) (port : Nat)
  | ControllerStop
  | ControllerCleanup
  | ClearGallery
  | SubmitTask (path : String)
  | PoolClear
  | PoolWaitDone
  | AcceptClose
deriving Repr, DecidableEq

/-- Is the action a task submission to the image pool? -/
def Action.isSubmit : Action → Bool
  | Action.SubmitTask _ => true
  | _ => false

/-- The mutable state of BotControllerGUI: widget contents, enablement
flags, the gallery, and the advisory run-state string. -/
structure GUIState where
  pixmaps : List Pixmap
  image_folder : String
  current_status : String
  username_input : String
  status_display : String
  speaking_status : String
  speaking_stylesheet : String
  image_label : Option Pixmap
  log_text : List String
  start_button_enabled : Bool
  stop_button_enabled : Bool
  username_enabled : Bool
  folder_enabled : Bool
  exe_path : String
deriving Repr, DecidableEq

/-- The window state right after __init__ and init_ui. -/
def initState : GUIState :=
  { pixmaps := []
    image_folder := ""
    current_status := "Stopped"
    username_input := ""
    status_display := "Bot Stopped"
    speaking_status := "Speaking: N/A"
    speaking_stylesheet := ""
    image_label := none
    log_text := []
    start_button_enabled := true
    stop_button_enabled := false
    username_enabled := true
    folder_enabled := true
    exe_path := "" }

/-- File-name filter used by load_images: QDir name filters
*.png *.jpg *.jpeg *.bmp. -/
def matchesFilter (name : String) : Bool :=
  strEndsWith name ".png" || strEndsWith name ".jpg" ||
    strEndsWith name ".jpeg" || strEndsWith name ".bmp"

/-- BotControllerGUI.load_images: clear the gallery, return early when no
folder is stored, otherwise submit one ImageLoader task per directory entry
matching the extension filters.  `entries` is the directory listing. -/
def load_images (s : GUIState) (entries : List String) : GUIState × List Action :=
  let s1 := { s with pixmaps := [] }
  if s1.image_folder = "" then (s1, [Action.ClearGallery])
  else
    (s1, Action.ClearGallery ::
      (entries.filter matchesFilter).map
        (fun f => Action.SubmitTask (s1.image_folder ++ "/" ++ f)))

/-- BotControllerGUI.on_image_loaded: ignore a null pixmap, otherwise append
the 400x400 keep-aspect scaled copy to the gallery. -/
def on_image_loaded (s : GUIState) (p : Pixmap) : GUIState :=
  if p.isNull then s
  else { s with pixmaps := s.pixmaps ++ [scaled400 p] }

/-- Delivery of a batch of finished loader tasks: each task runs
ImageLoader_run on its decode result and, when a signal is emitted, the
queued connection invokes on_image_loaded on the UI thread. -/
def processLoads (s : GUIState) (results : List Pixmap) : GUIState :=
  results.foldl
    (fun st r =>
      match ImageLoader_run r with
      | none => st
      | some p => on_image_loaded st p) s

/-- BotControllerGUI.start_bot.  `answerYes` is the user's reply to the
no-username confirmation dialog (consulted only when that dialog is shown);
`startResult` is the boolean returned by the controller's start call. -/
def start_bot (s : GUIState) (answerYes : Bool) (startResult : Bool) :
    GUIState × List Action :=
  let username := pyStrip s.username_input
  if s.image_folder = "" then
    (s, [Action.ShowWarning "Configuration Error" "Please select an image folder."])
  else
    let askActs : List Action :=
      if username = "" then
        [Action.AskQuestion "No Username" "No target username specified. Continue anyway?"]
      else []
    if username = "" ∧ answerYes = false then
      (s, askActs)
    else
      let s1 := { s with exe_path := "DCAUD.exe", status_display := "Bot Starting..." }
      let acts := askActs ++
        [Action.SetExePath "DCAUD.exe",
         Action.SetDisplay "Bot Starting...",
         Action.ControllerStart (if username = "" then none else some username) 3001]
      if startResult then ({ s1 with current_status := "Starting" }, acts)
      else (s1, acts)

/-- Payload of the speaking_update signal: a dict that may lack either key;
on_speaking_update reads it with defaults Unknown and False. -/
structure SpeakData where
  username : Option String
  speaking : Option Bool
deriving Repr, DecidableEq

/-- random.choice on a non-empty gallery, the random draw being supplied as
an arbitrary natural number reduced modulo the gallery size. -/
def randomChoice (l : List Pixmap) (draw : Nat) : Pixmap :=
  l.getD (draw % l.length) { w := 0, h := 0 }

/-- BotControllerGUI.on_speaking_update.  A non-empty Python list is truthy,
so the inner test is emptiness of the gallery. -/
def on_speaking_update (s : GUIState) (data : SpeakData) (draw : Nat) : GUIState :=
  let uname := data.username.getD "Unknown"
  let spk := data.speaking.getD false
  let s1 := { s with
    speaking_status := "Speaking: " ++ uname ++ " is " ++
      (if spk then "speaking" else "silent") }
  if spk then
    let s2 := { s1 with speaking_stylesheet := "color: green; font-weight: bold;" }
    if s2.pixmaps = [] then s2
    else { s2 with image_label := some (randomChoice s2.pixmaps draw) }
  else
    { s1 with speaking_stylesheet := "color: black; font-weight: normal;" }

/-- BotControllerGUI.on_log_message: append the line to the log, then the
two substring triggers, the logged-in literal taking precedence (elif). -/
def on_log_message (s : GUIState) (message : String) : GUIState :=
  let s1 := { s with log_text := s.log_text ++ [message] }
  if strContains message "Logged in as DCAudioDetection#5665" = true then
    { s1 with
      status_display := "You can join the bot on the server using !join now"
      current_status := "Running" }
  else if strContains message "Bot started" = true ∧ s1.current_status = "Starting" then
    { s1 with status_display := "Bot Running", current_status := "Running" }
  else s1

/-- BotControllerGUI.on_status_changed. -/
def on_status_changed (s : GUIState) (running : Bool) : GUIState :=
  if running then
    { s with
      start_button_enabled := false
      stop_button_enabled := true
      username_enabled := false
      folder_enabled := false }
  else
    { s with
      start_button_enabled := true
      stop_button_enabled := false
      username_enabled := true
      folder_enabled := true
      speaking_status := "Speaking: N/A"
      speaking_stylesheet := "color: black; font-weight: normal;"
      status_display := "Bot Stopped"
      current_status := "Stopped" }

/-- The image thread pool, seen as its queued (not yet started) and
currently running tasks, each identified by the file path it loads. -/
structure Pool where
  pending : List String
  running : List String
deriving Repr, DecidableEq

/-- QThreadPool.clear: remove the runnables that have not yet started. -/
def Pool.clear (pl : Pool) : Pool :=
  { pl with pending := [] }

/-- QThreadPool.waitForDone: block until every running task has finished;
the state it returns is the state observed after the call, in which no
task is executing any more. -/
def Pool.waitForDone (pl : Pool) : Pool :=
  { pl with running := [] }

/-- BotControllerGUI.closeEvent: controller cleanup, then pool.clear, then
pool.waitForDone, then accept the close event. -/
def closeEvent (pl : Pool) : Pool × List Action :=
  (Pool.waitForDone (Pool.clear pl),
   [Action.ControllerCleanup, Action.PoolClear, Action.PoolWaitDone,
    Action.AcceptClose])

/-- Invariant claimed of the gallery: every stored bitmap is non-null, fits
in 400x400, and is the keep-aspect scaling of some non-null decode. -/
def galleryInv (l : List Pixmap) : Prop :=
  ∀ p ∈ l, p.isNull = false ∧ p.w ≤ 400 ∧ p.h ≤ 400 ∧
    ∃ q : Pixmap, q.isNull = false ∧ p = scaled400 q

/-- The element picked from a non-empty gallery belongs to the gallery. -/
theorem randomChoice_mem (l : List Pixmap) (draw : Nat) (h : ¬ l = []) :
    randomChoice l draw ∈ l := by
  have hlen : 0 < l.length := List.length_pos.mpr h
  have hlt : draw % l.length < l.length := Nat.mod_lt _ hlen
  unfold randomChoice
  rw [List.getD_eq_get?, List.get?_eq_get hlt]
  exact List.get_mem _ _ _

/-- Every gallery element is picked by some draw of the random source. -/
theorem randomChoice_surj (l : List Pixmap) (p : Pixmap) (h : p ∈ l) :
    ∃ r, randomChoice l r = p := by
  obtain ⟨⟨i, hi⟩, rfl⟩ := List.mem_iff_get.mp h
  refine ⟨i, ?_⟩
  unfold randomChoice
  rw [Nat.mod_eq_of_lt hi, List.getD_eq_get?, List.get?_eq_get hi]
  rfl

/-- Claim C3 (confirmed): every log message containing the literal
"Logged in as DCAudioDetection#5665" sets the top status display to the
join-instruction message and the run-state to Running, whatever the
current run-state (in particular also from Stopped). -/
theorem claim_C3 (s : GUIState) (m : String)
    (h : strContains m "Logged in as DCAudioDetection#5665" = true) :
    (on_log_message s m).status_display =
      "You can join the bot on the server using !join now" ∧
    (on_log_message s m).current_status = "Running" := by
  simp [on_log_message, h]

/-- Concrete run of claim_C3 on the literal itself, starting from the
freshly initialised (Stopped) window. -/
theorem claim_C3_witness :
    (on_log_message initState "Logged in as DCAudioDetection#5665").status_display =
      "You can join the bot on the server using !join now" ∧
    (on_log_message initState "Logged in as DCAudioDetection#5665").current_status =
      "Running" :=
  claim_C3 initState "Logged in as DCAudioDetection#5665" (by decide)

/-- Claim C4 (confirmed): a speaking_update with speaking true leaves the
displayed image unchanged on an empty gallery and otherwise displays a
member of the gallery; every member is reachable by some random draw; a
speaking_update with speaking false never changes the displayed image. -/
theorem claim_C4 (s : GUIState) (data : SpeakData) (draw : Nat) :
    (data.speaking = some true → s.pixmaps = [] →
      (on_speaking_update s data draw).image_label = s.image_label) ∧
    (data.speaking = some true → ¬ s.pixmaps = [] →
      ∃ p, (on_speaking_update s data draw).image_label = some p ∧ p ∈ s.pixmaps) ∧
    (data.speaking = some true → ∀ p ∈ s.pixmaps, ∃ r,
      (on_speaking_update s data r).image_label = some p) ∧
    (data.speaking = some false →
      (on_speaking_update s data draw).image_label = s.image_label) := by
  refine ⟨fun hspk hemp => ?_, fun hspk hne => ?_, fun hspk p hp => ?_, fun hspk => ?_⟩
  · simp [on_speaking_update, hspk, hemp]
  · exact ⟨randomChoice s.pixmaps draw,
      by simp [on_speaking_update, hspk, hne], randomChoice_mem _ _ hne⟩
  · obtain ⟨r, hr⟩ := randomChoice_surj s.pixmaps p hp
    have hne : ¬ s.pixmaps = [] := by
      intro h0
      rw [h0] at hp
      simp at hp
    exact ⟨r, by simp [on_speaking_update, hspk, hne, hr]⟩
  · simp [on_speaking_update, hspk]

/-- Concrete run of claim_C4: with a one-element gallery and speaking true,
the displayed image is a member of the gallery. -/
theorem claim_C4_witness :
    ∃ p, (on_speaking_update { initState with pixmaps := [{ w := 100, h := 50 }] }
        { username := some "bob", speaking := some true } 0).image_label = some p ∧
      p ∈ ({ initState with pixmaps := [{ w := 100, h := 50 }] } : GUIState).pixmaps :=
  (claim_C4 { initState with pixmaps := [{ w := 100, h := 50 }] }
    { username := some "bob", speaking := some true } 0).2.1 rfl (by decide)

/-- Claim C5 (confirmed): status_changed false re-enables Start, username
and folder, disables Stop, resets the speaking line and its style, resets
the top display to Bot Stopped and the run-state to Stopped; status_changed
true disables Start, username and folder and enables Stop. -/
theorem claim_C5 (s : GUIState) :
    (on_status_changed s false).start_button_enabled = true ∧
    (on_status_changed s false).username_enabled = true ∧
    (on_status_changed s false).folder_enabled = true ∧
    (on_status_changed s false).stop_button_enabled = false ∧
    (on_status_changed s false).speaking_status = "Speaking: N/A" ∧
    (on_status_changed s false).speaking_stylesheet =
      "color: black; font-weight: normal;" ∧
    (on_status_changed s false).status_display = "Bot Stopped" ∧
    (on_status_changed s false).current_status = "Stopped" ∧
    (on_status_changed s true).start_button_enabled = false ∧
    (on_status_changed s true).username_enabled = false ∧
    (on_status_changed s true).folder_enabled = false ∧
    (on_status_changed s true).stop_button_enabled = true := by
  simp [on_status_changed]

/-- Claim C6 (confirmed): starting with an empty stored folder shows the
configuration-error dialog, performs no other action (no controller start,
no username confirmation), and leaves the window state untouched. -/
theorem claim_C6 (s : GUIState) (answerYes startResult : Bool)
    (h : s.image_folder = "") :
    (start_bot s answerYes startResult).1 = s ∧
    (start_bot s answerYes startResult).2 =
      [Action.ShowWarning "Configuration Error" "Please select an image folder."] ∧
    (∀ u p, Action.ControllerStart u p ∉ (start_bot s answerYes startResult).2) ∧
    (∀ t m, Action.AskQuestion t m ∉ (start_bot s answerYes startResult).2) := by
  refine ⟨by simp [start_bot, h], by simp [start_bot, h], ?_, ?_⟩
  · intro u p
    simp [start_bot, h]
  · intro t m
    simp [start_bot, h]

/-- Concrete run of claim_C6 from the initial state, whose folder is empty. -/
theorem claim_C6_witness :
    (start_bot initState true true).1 = initState ∧
    (start_bot initState true true).2 =
      [Action.ShowWarning "Configuration Error" "Please select an image folder."] ∧
    (∀ u p, Action.ControllerStart u p ∉ (start_bot initState true true).2) ∧
    (∀ t m, Action.AskQuestion t m ∉ (start_bot initState true true).2) :=
  claim_C6 initState true true rfl

/-- Claim C7 (confirmed): selecting a folder clears the gallery first and
then submits exactly one load task per entry matching the image-extension
filters: the number of submitted tasks equals the number of matching
entries, whatever other entries the folder holds. -/
theorem claim_C7 (s : GUIState) (entries : List String)
    (h : ¬ s.image_folder = "") :
    (load_images s entries).1.pixmaps = [] ∧
    (load_images s entries).2 =
      Action.ClearGallery ::
        (entries.filter matchesFilter).map
          (fun f => Action.SubmitTask (s.image_folder ++ "/" ++ f)) ∧
    (load_images s entries).2.countP Action.isSubmit =
      entries.countP matchesFilter := by
  refine ⟨by simp [load_images, h], by simp [load_images, h], ?_⟩
  have hmap : ∀ l : List String,
      (l.map (fun f => Action.SubmitTask (s.image_folder ++ "/" ++ f))).countP
        Action.isSubmit = l.length := by
    intro l
    induction l with
    | nil => rfl
    | cons a as ih => simp [List.countP_cons, Action.isSubmit, ih]
  simp only [load_images, if_neg h]
  have hcons : (Action.ClearGallery :: (entries.filter matchesFilter).map
      (fun f => Action.SubmitTask (s.image_folder ++ "/" ++ f))).countP Action.isSubmit
      = (entries.filter matchesFilter).length := by
    rw [List.countP_cons]
    simp [Action.isSubmit, hmap]
  rw [hcons, ← List.countP_eq_length_filter]

/-- Concrete run of claim_C7 on a folder listing with two matching entries
and one non-matching entry: exactly two tasks are submitted. -/
theorem claim_C7_witness :
    (load_images { initState with image_folder := "imgs" }
      ["a.png", "b.txt", "c.jpeg"]).2.countP Action.isSubmit = 2 := by
  have h := claim_C7 { initState with image_folder := "imgs" }
    ["a.png", "b.txt", "c.jpeg"] (by decide)
  rw [h.2.2]
  decide

/-- Claim C8 (confirmed): a load task whose decode fails delivers nothing;
one whose decode succeeds delivers its pixmap; and over any batch of task
results the gallery receives exactly the scaled successful decodes, in
batch order, independently of how many other decodes failed. -/
theorem claim_C8 :
    (∀ p : Pixmap, p.isNull = true → ImageLoader_run p = none) ∧
    (∀ p : Pixmap, p.isNull = false → ImageLoader_run p = some p) ∧
    (∀ (s : GUIState) (results : List Pixmap),
      (processLoads s results).pixmaps =
        s.pixmaps ++ (results.filter (fun p => !p.isNull)).map scaled400) := by
  refine ⟨fun p hp => by simp [ImageLoader_run, hp],
          fun p hp => by simp [ImageLoader_run, hp], ?_⟩
  intro s results
  induction results generalizing s with
  | nil => simp [processLoads]
  | cons r rs ih =>
    by_cases hr : r.isNull = true
    · have hstep : processLoads s (r :: rs) = processLoads s rs := by
        simp [processLoads, ImageLoader_run, hr]
      rw [hstep, ih, List.filter_cons]
      simp [hr]
    · have hr2 : r.isNull = false := by simpa using hr
      have hstep : processLoads s (r :: rs) = processLoads (on_image_loaded s r) rs := by
        simp [processLoads, ImageLoader_run, hr2]
      rw [hstep, ih, List.filter_cons]
      simp [on_image_loaded, hr2]

/-- Concrete run of claim_C8: a null decode result delivers nothing. -/
theorem claim_C8_witness :
    ImageLoader_run { w := 0, h := 7 } = none :=
  claim_C8.1 { w := 0, h := 7 } (by decide)

/-- Claim C9 (confirmed): closing the window first calls the controller
cleanup, then discards the queued tasks, then waits for the running tasks,
then accepts the close; afterwards the pool has neither queued nor running
tasks. -/
theorem claim_C9 (pl : Pool) :
    (closeEvent pl).2 =
      [Action.ControllerCleanup, Action.PoolClear, Action.PoolWaitDone,
       Action.AcceptClose] ∧
    (closeEvent pl).1.pending = [] ∧
    (closeEvent pl).1.running = [] := by
  simp [closeEvent, Pool.clear, Pool.waitForDone]

/-- The keep-aspect 400x400 scaling of a non-null pixmap is non-null and
fits inside 400x400. -/
theorem scaled400_fits (p : Pixmap) (hp : p.isNull = false) :
    (scaled400 p).isNull = false ∧ (scaled400 p).w ≤ 400 ∧ (scaled400 p).h ≤ 400 := by
  have hw0 : ¬ p.w = 0 ∧ ¬ p.h = 0 := by simpa [Pixmap.isNull] using hp
  have hwpos : 0 < p.w := Nat.pos_of_ne_zero hw0.1
  have hhpos : 0 < p.h := Nat.pos_of_ne_zero hw0.2
  have hcond : (p.w == 0 || p.h == 0) = false := by simpa [Pixmap.isNull] using hp
  by_cases hle : 400 * p.w / p.h ≤ 400
  · have hres : scaled400 p =
        { w := max (400 * p.w / p.h) 1, h := max 400 1 } := by
      simp [scaled400, hp, scaledKeep, hcond, hle]
    rw [hres]
    refine ⟨?_, ?_, ?_⟩
    · simp only [Pixmap.isNull]
      simp
    · simp only [Nat.max_le]
      omega
    · simp
  · have hhw : p.h ≤ p.w := by
      by_contra hcon
      have hlt : p.w ≤ p.h := Nat.le_of_lt (Nat.lt_of_not_le hcon)
      have h1 : 400 * p.w ≤ 400 * p.h := Nat.mul_le_mul_left 400 hlt
      have h2 : 400 * p.w / p.h ≤ 400 * p.h / p.h := Nat.div_le_div_right h1
      rw [Nat.mul_div_cancel _ hhpos] at h2
      exact hle h2
    have hb : 400 * p.h / p.w ≤ 400 := by
      have h1 : 400 * p.h ≤ 400 * p.w := Nat.mul_le_mul_left 400 hhw
      have h2 : 400 * p.h / p.w ≤ 400 * p.w / p.w := Nat.div_le_div_right h1
      rwa [Nat.mul_div_cancel _ hwpos] at h2
    have hres : scaled400 p =
        { w := max 400 1, h := max (400 * p.h / p.w) 1 } := by
      simp [scaled400, hp, scaledKeep, hcond, hle]
    rw [hres]
    refine ⟨?_, ?_, ?_⟩
    · simp only [Pixmap.isNull]
      simp
    · simp
    · simp only [Nat.max_le]
      omega

/-- Claim C10 (confirmed): every bitmap in the gallery is non-null and is
the keep-aspect 400x400 scaling of a non-null decode, hence fits inside
400x400; the invariant holds through both gallery mutations (the clear in
load_images and the append in on_image_loaded), and the remaining handlers
never touch the gallery. -/
theorem claim_C10 :
    (∀ (s : GUIState) (entries : List String),
      galleryInv ((load_images s entries).1.pixmaps)) ∧
    (∀ (s : GUIState) (p : Pixmap),
      galleryInv s.pixmaps → galleryInv ((on_image_loaded s p).pixmaps)) ∧
    (∀ (s : GUIState) (d : SpeakData) (r : Nat),
      (on_speaking_update s d r).pixmaps = s.pixmaps) ∧
    (∀ (s : GUIState) (m : String), (on_log_message s m).pixmaps = s.pixmaps) ∧
    (∀ (s : GUIState) (b : Bool), (on_status_changed s b).pixmaps = s.pixmaps) := by
  refine ⟨?_, ?_, ?_, ?_, ?_⟩
  · intro s entries
    by_cases h : s.image_folder = "" <;> simp [load_images, h, galleryInv]
  · intro s p hinv
    by_cases hp : p.isNull = true
    · simpa [on_image_loaded, hp] using hinv
    · have hp2 : p.isNull = false := by simpa using hp
      intro q hq
      rw [on_image_loaded] at hq
      rw [if_neg (by simp [hp2])] at hq
      simp only [List.mem_append, List.mem_singleton] at hq
      rcases hq with hq | hq
      · exact hinv q hq
      · subst hq
        obtain ⟨h1, h2, h3⟩ := scaled400_fits p hp2
        exact ⟨h1, h2, h3, p, hp2, rfl⟩
  · intro s d r
    unfold on_speaking_update
    by_cases hd : d.speaking.getD false <;> simp [hd]
    split <;> simp
  · intro s m
    simp only [on_log_message]
    split
    · rfl
    · split <;> rfl
  · intro s b
    cases b <;> simp [on_status_changed]

/-- Concrete run of claim_C10: appending a successfully decoded 800x600
bitmap to the initially empty gallery keeps the invariant. -/
theorem claim_C10_witness :
    galleryInv ((on_image_loaded initState { w := 800, h := 600 }).pixmaps) :=
  claim_C10.2.1 initState { w := 800, h := 600 } (by simp [galleryInv, initState])

/-- Closed form of start_bot on the paths that pass validation: the folder
is non-empty and the no-username dialog, when shown, is answered Yes. -/
theorem start_bot_proceed (s : GUIState) (a r : Bool)
    (hf : ¬ s.image_folder = "")
    (hok : ¬ (pyStrip s.username_input = "" ∧ a = false)) :
    start_bot s a r =
      (if r = true then
        { s with exe_path := "DCAUD.exe", status_display := "Bot Starting...",
                 current_status := "Starting" }
       else { s with exe_path := "DCAUD.exe", status_display := "Bot Starting..." },
       (if pyStrip s.username_input = "" then
          [Action.AskQuestion "No Username"
            "No target username specified. Continue anyway?"]
        else []) ++
       [Action.SetExePath "DCAUD.exe",
        Action.SetDisplay "Bot Starting...",
        Action.ControllerStart
          (if pyStrip s.username_input = "" then none
           else some (pyStrip s.username_input)) 3001]) := by
  unfold start_bot
  rw [if_neg hf, if_neg hok]
  cases r <;> simp

/-- Claim C1 (corrected: the optimistic display text is the literal
"Bot Starting...", not "Starting"): on every invocation of Start that
passes validation, the display is set to "Bot Starting..." before the
controller start(username-or-none, 3001) call is made; the run-state is
set to Starting exactly when start returns true, and a false return leaves
the display at "Bot Starting..." and the run-state unchanged, with no
warning dialog ever shown on this path. -/
theorem claim_C1 (s : GUIState) (answerYes startResult : Bool)
    (hf : ¬ s.image_folder = "")
    (hu : ¬ pyStrip s.username_input = "" ∨ answerYes = true) :
    (start_bot s answerYes startResult).1.status_display = "Bot Starting..." ∧
    (∃ i j, i < j ∧
      (start_bot s answerYes startResult).2.get? i =
        some (Action.SetDisplay "Bot Starting...") ∧
      (start_bot s answerYes startResult).2.get? j =
        some (Action.ControllerStart
          (if pyStrip s.username_input = "" then none
           else some (pyStrip s.username_input)) 3001)) ∧
    (startResult = true →
      (start_bot s answerYes startResult).1.current_status = "Starting") ∧
    (startResult = false →
      (start_bot s answerYes startResult).1.current_status = s.current_status) ∧
    (∀ t m, Action.ShowWarning t m ∉ (start_bot s answerYes startResult).2) := by
  have hok : ¬ (pyStrip s.username_input = "" ∧ answerYes = false) := by
    rcases hu with h | h
    · exact fun hc => h hc.1
    · intro hc
      rw [h] at hc
      exact absurd hc.2 (by simp)
  rw [start_bot_proceed s answerYes startResult hf hok]
  by_cases hemp : pyStrip s.username_input = ""
  · refine ⟨?_, ⟨2, 3, by omega, ?_, ?_⟩, ?_, ?_, ?_⟩
    · cases startResult <;> simp
    · simp [hemp]
    · simp [hemp]
    · intro hr
      rw [hr]
      simp
    · intro hr
      rw [hr]
      simp
    · intro t m
      simp [hemp]
  · refine ⟨?_, ⟨1, 2, by omega, ?_, ?_⟩, ?_, ?_, ?_⟩
    · cases startResult <;> simp
    · simp [hemp]
    · simp [hemp]
    · intro hr
      rw [hr]
      simp
    · intro hr
      rw [hr]
      simp
    · intro t m
      simp [hemp]

/-- Concrete run of claim_C1: empty username confirmed via the dialog,
controller start succeeding. -/
theorem claim_C1_witness :
    (start_bot { initState with image_folder := "imgs" } true true).1.status_display =
      "Bot Starting..." ∧
    (∃ i j, i < j ∧
      (start_bot { initState with image_folder := "imgs" } true true).2.get? i =
        some (Action.SetDisplay "Bot Starting...") ∧
      (start_bot { initState with image_folder := "imgs" } true true).2.get? j =
        some (Action.ControllerStart
          (if pyStrip ({ initState with image_folder := "imgs" } : GUIState).username_input = ""
           then none
           else some (pyStrip ({ initState with image_folder := "imgs" } : GUIState).username_input))
          3001)) ∧
    (true = true →
      (start_bot { initState with image_folder := "imgs" } true true).1.current_status =
        "Starting") ∧
    (true = false →
      (start_bot { initState with image_folder := "imgs" } true true).1.current_status =
        ({ initState with image_folder := "imgs" } : GUIState).current_status) ∧
    (∀ t m, Action.ShowWarning t m ∉
      (start_bot { initState with image_folder := "imgs" } true true).2) :=
  claim_C1 { initState with image_folder := "imgs" } true true (by decide) (Or.inr rfl)

/-- Counterexample to claim C1 as stated: on a validated Start the window
displays the literal "Bot Starting...", which is not the string "Starting"
the claim names. -/
theorem claim_C1_counterexample :
    (start_bot { initState with image_folder := "imgs" } true true).1.status_display ≠
      "Starting" ∧
    (start_bot { initState with image_folder := "imgs" } true true).1.status_display =
      "Bot Starting..." := by
  refine ⟨by decide, by decide⟩

/-- Claim C2 (corrected: the logged-in literal takes precedence, so the
Bot-started transition requires the message not to contain it): for every
delivered log message not containing "Logged in as DCAudioDetection#5665",
if it contains "Bot started" and the run-state is Starting then the display
becomes "Bot Running" and the run-state Running with the line appended; if
it contains "Bot started" and the run-state is not Starting, or contains
neither trigger, the line is only appended and nothing else changes. -/
theorem claim_C2 (s : GUIState) (m : String)
    (hnl : strContains m "Logged in as DCAudioDetection#5665" = false) :
    (strContains m "Bot started" = true → s.current_status = "Starting" →
      (on_log_message s m).status_display = "Bot Running" ∧
      (on_log_message s m).current_status = "Running" ∧
      (on_log_message s m).log_text = s.log_text ++ [m]) ∧
    (strContains m "Bot started" = true → ¬ s.current_status = "Starting" →
      on_log_message s m = { s with log_text := s.log_text ++ [m] }) ∧
    (strContains m "Bot started" = false →
      on_log_message s m = { s with log_text := s.log_text ++ [m] }) := by
  refine ⟨fun hb hs => ?_, fun hb hs => ?_, fun hb => ?_⟩
  · simp [on_log_message, hnl, hb, hs]
  · simp [on_log_message, hnl, hb, hs]
  · simp [on_log_message, hnl, hb]

/-- Concrete run of claim_C2: the bare line "Bot started" received while
the run-state is Starting moves the display to "Bot Running". -/
theorem claim_C2_witness :
    (on_log_message { initState with current_status := "Starting" }
      "Bot started").status_display = "Bot Running" ∧
    (on_log_message { initState with current_status := "Starting" }
      "Bot started").current_status = "Running" ∧
    (on_log_message { initState with current_status := "Starting" }
      "Bot started").log_text =
      ({ initState with current_status := "Starting" } : GUIState).log_text ++
        ["Bot started"] :=
  (claim_C2 { initState with current_status := "Starting" } "Bot started"
    (by decide)).1 (by decide) rfl

/-- Counterexample to claim C2 as stated: a message that contains both
trigger substrings, received in run-state Starting, sets the display to the
join-instruction message rather than "Bot Running", because the elif gives
the logged-in literal precedence. -/
theorem claim_C2_counterexample :
    strContains "Bot started ; Logged in as DCAudioDetection#5665"
      "Bot started" = true ∧
    ({ initState with current_status := "Starting" } : GUIState).current_status =
      "Starting" ∧
    (on_log_message { initState with current_status := "Starting" }
      "Bot started ; Logged in as DCAudioDetection#5665").status_display ≠
      "Bot Running" := by
  refine ⟨by decide, rfl, by decide⟩

end DCAUD
